import Mathlib

/-!
Shallow embedding of the form-widget repository
(src/react/src/app/InputField.tsx, src/react/src/app/OldForm.tsx, src/README.md)
and verification of the spec claims about it.

React state hooks are modelled by explicit state records; each event handler
becomes a function from the pre-event state to the post-event state, paired
with the list of callbacks it invokes.  State reads inside a handler are reads
of the render-time closure, so a handler that first schedules a state update
and then reads the same variable still sees the pre-event value; the embedding
reproduces this by reading the handler's input state.
-/

namespace FormWidget

/-! ## InputField (src/react/src/app/InputField.tsx)

`InputField` holds two state hooks: `value` (initialised from the
`initialValue` prop, default the empty string) and `error : string | null`
(initialised to `null`).  The optional `validate` prop has type
`(value: string) => string | null`. -/

/-- The `validate` prop type of `InputField`: `(value: string) => string | null`. -/
abbrev FieldValidator := String → Option String

/-- The two state hooks of one mounted `InputField`. -/
structure FieldState where
  value : String
  error : Option String
deriving Repr, DecidableEq

/-- The state of a freshly mounted `InputField` with the given `initialValue`
prop: `useState(initialValue)` and `useState<string | null>(null)`. -/
def initField (initialValue : String) : FieldState :=
  { value := initialValue, error := none }

/-- Callbacks a field can invoke toward its parent.  The source `InputField`
only ever invokes the value-changed callback (`onChange?.(newValue)`); the
validity-changed constructor exists so that claims about a validity callback
can be stated and counted against the emitted trace. -/
inductive FieldCallback where
  | valueChanged (value : String)
  | validityChanged (failures : List String)
deriving Repr, DecidableEq

/-- `handleChange` (InputField.tsx lines 21-28): read the new value from the
event, `setValue(newValue)`, then `onChange?.(newValue)`.  It does not touch
`error` and does not run `validate`. -/
def handleChange (s : FieldState) (newValue : String) :
    FieldState × List FieldCallback :=
  ({ value := newValue, error := s.error }, [FieldCallback.valueChanged newValue])

/-- `handleBlur` (InputField.tsx lines 30-35): if a `validate` prop is
configured, run it on the current `value` and `setError` with its result;
no callback is invoked. -/
def handleBlur (validate : Option FieldValidator) (s : FieldState) :
    FieldState × List FieldCallback :=
  match validate with
  | some v => ({ s with error := v s.value }, [])
  | none => (s, [])

/-- Render-time error visibility (InputField.tsx line 50):
`{error && <p ...>{error}</p>}` — the message paragraph is rendered exactly
when `error` is truthy, i.e. non-null and not the empty string. -/
def errorDisplayed (s : FieldState) : Bool :=
  match s.error with
  | some msg => !msg.isEmpty
  | none => false

/-- Raw UI events an `InputField` reacts to. -/
inductive FieldEvent where
  | change (newValue : String)
  | blur
deriving Repr, DecidableEq

/-- One event step of a mounted `InputField`. -/
def stepField (validate : Option FieldValidator) (s : FieldState) :
    FieldEvent → FieldState × List FieldCallback
  | FieldEvent.change v => handleChange s v
  | FieldEvent.blur => handleBlur validate s

/-- Process a sequence of events, accumulating the emitted callbacks. -/
def runField (validate : Option FieldValidator) (s : FieldState) :
    List FieldEvent → FieldState × List FieldCallback
  | [] => (s, [])
  | e :: rest =>
    let step := stepField validate s e
    let next := runField validate step.1 rest
    (next.1, step.2 ++ next.2)

/-- Recogniser for validity-changed callbacks in an emitted trace. -/
def isValidityCallback : FieldCallback → Bool
  | FieldCallback.validityChanged _ => true
  | FieldCallback.valueChanged _ => false

/-- How many validity-changed callbacks a trace contains. -/
def countValidity (cs : List FieldCallback) : Nat :=
  (cs.filter isValidityCallback).length

/-! ## NewForm (second component in src/react/src/app/OldForm.tsx)

`NewForm` renders two `InputField`s (username with `validateUsername`,
password with `validatePassword`) and a submit handler that reads the
current input values out of the DOM `FormData` and logs them; it holds no
state of its own and never touches the fields' state. -/

/-- `validateUsername` (NewForm): returns a message when the value is
non-empty and shorter than 7 characters, otherwise `null`. -/
def validateUsername (value : String) : Option String :=
  if 0 < value.length ∧ value.length < 7 then
    some "Username must be at least 7 characters long"
  else
    none

/-- `validatePassword` (NewForm): returns a message when the value is
non-empty and shorter than 8 characters, otherwise `null`. -/
def validatePassword (value : String) : Option String :=
  if 0 < value.length ∧ value.length < 8 then
    some "Password must be at least 8 characters long"
  else
    none

/-- The mounted state of `NewForm`: the states of its two `InputField`s
(the form itself is stateless). -/
structure NewFormState where
  usernameField : FieldState
  passwordField : FieldState
deriving Repr, DecidableEq

/-- The object `NewForm.handleSubmit` builds from `FormData` and logs. -/
structure SubmitData where
  username : String
  password : String
deriving Repr, DecidableEq

/-- `NewForm.handleSubmit` (OldForm.tsx lines 132-140): `preventDefault`,
read the two current input values from `FormData`, and log them.  It does
not modify any field state. -/
def newFormHandleSubmit (s : NewFormState) : NewFormState × SubmitData :=
  (s, { username := s.usernameField.value, password := s.passwordField.value })

/-! ## OldForm (first component in src/react/src/app/OldForm.tsx)

`OldForm` holds four state hooks: `username`, `password`, `usernameError`,
`passwordError`, all initialised to the empty string.  Its validators are
effectful: they set the corresponding error state from the given value. -/

/-- The four state hooks of `OldForm`. -/
structure OldFormState where
  username : String
  password : String
  usernameError : String
  passwordError : String
deriving Repr, DecidableEq

/-- The message `OldForm.validateUsername` stores: the failure message when
the value is non-empty and shorter than 7 characters, otherwise the empty
string. -/
def usernameErrMsg (value : String) : String :=
  if 0 < value.length ∧ value.length < 7 then
    "Username must be at least 7 characters long"
  else
    ""

/-- The message `OldForm.validatePassword` stores: the failure message when
the value is non-empty and shorter than 8 characters, otherwise the empty
string. -/
def passwordErrMsg (value : String) : String :=
  if 0 < value.length ∧ value.length < 8 then
    "Password must be at least 8 characters long"
  else
    ""

/-- `OldForm.validateUsername(value)` (lines 11-17): `setUsernameError` with
the message for `value`. -/
def oldFormValidateUsername (s : OldFormState) (value : String) : OldFormState :=
  { s with usernameError := usernameErrMsg value }

/-- `OldForm.validatePassword(value)` (lines 19-25): `setPasswordError` with
the message for `value`. -/
def oldFormValidatePassword (s : OldFormState) (value : String) : OldFormState :=
  { s with passwordError := passwordErrMsg value }

/-- `handleUsernameChange` (lines 27-31): `setUsername(value)` then
`validateUsername(value)`. -/
def handleUsernameChange (s : OldFormState) (value : String) : OldFormState :=
  oldFormValidateUsername { s with username := value } value

/-- `handlePasswordChange` (lines 33-40): `setPassword(value)`, then validate
only if `passwordError` is currently truthy (non-empty). -/
def handlePasswordChange (s : OldFormState) (value : String) : OldFormState :=
  let s1 := { s with password := value }
  if s.passwordError ≠ "" then oldFormValidatePassword s1 value else s1

/-- `handleUsernameBlur` (lines 42-44): `validateUsername(username)`. -/
def handleUsernameBlur (s : OldFormState) : OldFormState :=
  oldFormValidateUsername s s.username

/-- `handlePasswordBlur` (lines 46-48): `validatePassword(password)`. -/
def handlePasswordBlur (s : OldFormState) : OldFormState :=
  oldFormValidatePassword s s.password

/-- `OldForm.handleSubmit` (lines 50-67): `preventDefault`; re-validate both
fields (scheduling error-state updates); then the guard
`if (usernameError || passwordError || username.length < 7 || password.length < 8) return;`
reads the render-time closure, i.e. the pre-event error strings, not the ones
just scheduled.  On the rejected path the handler returns with only the
re-validation updates applied; on the accepted path it logs the credentials
and resets all four state hooks to the empty string.  The returned Bool is
whether the accepted path (the actual submission) was reached. -/
def oldFormHandleSubmit (s : OldFormState) : OldFormState × Bool :=
  let s1 := oldFormValidateUsername s s.username
  let s2 := oldFormValidatePassword s1 s1.password
  if s.usernameError ≠ "" ∨ s.passwordError ≠ "" ∨
      s.username.length < 7 ∨ s.password.length < 8 then
    (s2, false)
  else
    ({ username := "", password := "", usernameError := "", passwordError := "" }, true)

/-- The initial state of a freshly mounted `OldForm`: all four hooks start
as the empty string. -/
def oldFormInit : OldFormState :=
  { username := "", password := "", usernameError := "", passwordError := "" }

/-- Raw UI events `OldForm` reacts to. -/
inductive OldFormEvent where
  | usernameChange (value : String)
  | passwordChange (value : String)
  | usernameBlur
  | passwordBlur
  | submit
deriving Repr, DecidableEq

/-- One event step of a mounted `OldForm`. -/
def oldFormStep (s : OldFormState) : OldFormEvent → OldFormState
  | OldFormEvent.usernameChange v => handleUsernameChange s v
  | OldFormEvent.passwordChange v => handlePasswordChange s v
  | OldFormEvent.usernameBlur => handleUsernameBlur s
  | OldFormEvent.passwordBlur => handlePasswordBlur s
  | OldFormEvent.submit => (oldFormHandleSubmit s).1

/-- Process a sequence of `OldForm` events from a given state. -/
def runOldForm (s : OldFormState) : List OldFormEvent → OldFormState
  | [] => s
  | e :: rest => runOldForm (oldFormStep s e) rest

/-- The states a mounted `OldForm` can actually be in: the initial state and
everything reachable from it by UI events. -/
def ReachableOldForm (s : OldFormState) : Prop :=
  ∃ events, runOldForm oldFormInit events = s

/-- The state invariant a mounted `OldForm` maintains: the username error
always mirrors the current username (every username path re-validates),
and the password error is either empty or mirrors the current password
(password changes skip validation only while the error is empty). -/
def OldFormInv (s : OldFormState) : Prop :=
  s.usernameError = usernameErrMsg s.username ∧
    (s.passwordError = "" ∨ s.passwordError = passwordErrMsg s.password)

/-! ## Concrete scenario data used by the claims -/

/-- A `validate` prop expressing the C1 scenario's rule set
(required, exactly 5 digits) in the `string | null` shape the
`InputField` prop accepts. -/
def zipValidate : FieldValidator := fun v =>
  if v.length = 0 then some "Required"
  else if v.length = 5 ∧ v.all Char.isDigit then none
  else some "Must be exactly 5 digits"

/-- The C1 scenario's value sequence as change events:
empty → "1" → "12" → "123" → "1234" → "12345". -/
def zipChangeEvents : List FieldEvent :=
  [FieldEvent.change "1", FieldEvent.change "12", FieldEvent.change "123",
   FieldEvent.change "1234", FieldEvent.change "12345"]

/-- A `NewForm` whose username field is pristine (mounted with initial value
"abc", never edited, never blurred) and currently invalid. -/
def pristineInvalidNewForm : NewFormState :=
  { usernameField := initField "abc", passwordField := initField "" }

/-- The value held by the field at the most recent blur of an event
sequence, given that the field currently holds `cur`; `none` if the
sequence contains no blur. -/
def lastBlurValue (cur : String) : List FieldEvent → Option String
  | [] => none
  | FieldEvent.change v :: rest => lastBlurValue v rest
  | FieldEvent.blur :: rest =>
    match lastBlurValue cur rest with
    | some w => some w
    | none => some cur

/-! ## Validation primitives documented in src/README.md

The README (the repository's architecture document) specifies a
`ValidationFailure` record and a `combineValidators()` utility that live in
the reference service's `src/utils/validation`, which is not part of this
repository's source tree; they are modelled here from the specification
text. -/

/-- `ValidationFailure` (README lines 96-120): one record per failed rule,
with a `reason`, an `error` that is non-null only when the predicate threw,
and arbitrary `meta` data, here modelled as a key-value list. -/
structure ValidationFailure where
  reason : String
  error : Option String
  meta : List (String × String)
deriving Repr, DecidableEq

/-- `Validator` (README lines 122-130): a function from a value to a list of
validation failures; the empty list means valid. -/
abbrev Validator (α : Type) := α → List ValidationFailure

/-- The result shape of `combineValidators`: the record-level check together
with the per-key validator map it exposes ("each `Validator` defined is
attached to the returned `Validator` function"). -/
structure CombinedValidator where
  fields : List (String × Validator (Option String))
  run : (String → Option String) → List ValidationFailure

/-- Stamp a failure with its source key at `meta.field`; the stamped key
overrides any pre-existing `field` entry and all other meta is preserved. -/
def stampField (key : String) (f : ValidationFailure) : ValidationFailure :=
  { f with meta := ("field", key) :: f.meta.filter (fun p => p.1 != "field") }

/-- Modelled from the spec: `combineValidators` (src/README.md lines 146-150
and spec section 4.1) is documented but not implemented under src/.  Given a
mapping from record key to per-key validator, it returns a record-level
validator that runs each key's validator against that key's value, in the
map's declared order, concatenates the failures, stamps each failure with
`meta.field = key`, and still exposes the original per-key validator map. -/
def combineValidators (m : List (String × Validator (Option String))) :
    CombinedValidator :=
  { fields := m
    run := fun record =>
      (m.map (fun kv => (kv.2 (record kv.1)).map (stampField kv.1))).flatten }

/-- Concrete per-key validator for the C7 witness: always fails once. -/
def witnessVa : Validator (Option String) :=
  fun _ => [{ reason := "fail", error := none, meta := [] }]

/-- Concrete per-key validator for the C7 witness: always passes. -/
def witnessVb : Validator (Option String) :=
  fun _ => []

/-- The record value of the C7 witness scenario. -/
def witnessRecord : String → Option String :=
  fun k => if k = "a" then some "x" else if k = "b" then some "y" else none

end FormWidget

namespace FormWidget

/-- Claim C10: both demo validators treat the empty string as valid —
`validateUsername ""` and `validatePassword ""` are both `null`, so an
empty field is never reported invalid by them and required-ness is not
enforced. -/
theorem claim_C10_empty_string_valid :
    validateUsername "" = none ∧ validatePassword "" = none := by
  constructor <;> rfl

/-- Claim C6: every value-change event invokes the value-changed callback
with the new value (and updates the stored value), regardless of the
validator or of whether validity changed — `handleChange` emits exactly
one `valueChanged` callback carrying the new value. -/
theorem claim_C6_value_callback_always_fires (s : FieldState) (v : String) :
    (handleChange s v).2 = [FieldCallback.valueChanged v] ∧
      (handleChange s v).1.value = v := by
  constructor <;> rfl

/-- Claim C5: the demo validators are deterministic — equal string inputs
yield equal (element-wise equal) outputs for both `validateUsername` and
`validatePassword`; the source functions are pure, reading nothing but
their argument. -/
theorem claim_C5_validators_deterministic (s t : String) (h : s = t) :
    validateUsername s = validateUsername t ∧
      validatePassword s = validatePassword t := by
  subst h; exact ⟨rfl, rfl⟩

/-- Witness for C5 at the concrete input "abc". -/
theorem claim_C5_witness :
    validateUsername "abc" = validateUsername "abc" ∧
      validatePassword "abc" = validatePassword "abc" :=
  claim_C5_validators_deterministic "abc" "abc" rfl

theorem countValidity_append (a b : List FieldCallback) :
    countValidity (a ++ b) = countValidity a + countValidity b := by
  simp [countValidity, List.filter_append]

/-- No run of `InputField` ever emits a validity-changed callback: value
changes emit only `valueChanged`, and blur updates the error state without
any callback. -/
theorem runField_emits_no_validity (validate : Option FieldValidator)
    (events : List FieldEvent) :
    ∀ s : FieldState, countValidity (runField validate s events).2 = 0 := by
  induction events with
  | nil => intro s; rfl
  | cons e rest ih =>
    intro s
    cases e with
    | change v =>
      simp only [runField, stepField, countValidity_append, ih]
      rfl
    | blur =>
      cases validate with
      | some f =>
        simp only [runField, stepField, handleBlur, countValidity_append, ih]
        rfl
      | none =>
        simp only [runField, stepField, handleBlur, countValidity_append, ih]
        rfl

/-- Counterexample to claim C1: over the value sequence
empty → "1" → "12" → "123" → "1234" → "12345" with the
required/5-digit rules configured as the `validate` prop, the
validity-changed callback fires zero times, not the claimed two —
`handleChange` never runs the validator and `InputField` has no
validity-changed callback at all. -/
theorem claim_C1_counterexample :
    countValidity (runField (some zipValidate) (initField "") zipChangeEvents).2 = 0 ∧
      countValidity (runField (some zipValidate) (initField "") zipChangeEvents).2 ≠ 2 := by
  constructor
  · rfl
  · intro h
    exact absurd h (by decide)

/-- Claim C1 (amended): a value-change event does not re-run the validator —
it leaves the error state unchanged and emits exactly the value-changed
callback — and no event sequence whatsoever makes `InputField` emit a
validity-changed callback; in particular the claim's six-value sequence
produces zero validity-changed callbacks, not two. -/
theorem claim_C1_amended_no_validity_callbacks
    (validate : Option FieldValidator) (s : FieldState) (v : String) :
    (handleChange s v).1.error = s.error ∧
      (handleChange s v).2 = [FieldCallback.valueChanged v] ∧
      ∀ (events : List FieldEvent) (s₀ : FieldState),
        countValidity (runField validate s₀ events).2 = 0 :=
  ⟨rfl, rfl, fun events s₀ => runField_emits_no_validity validate events s₀⟩

/-- Counterexample to claim C2: a field mounted with the invalid initial
value "abc" and `validateUsername` configured, whose value has never
changed, displays the validation error after a single blur event. -/
theorem claim_C2_counterexample :
    validateUsername "abc" ≠ none ∧
      errorDisplayed (handleBlur (some validateUsername) (initField "abc")).1 = true := by
  constructor
  · intro h
    exact absurd h (by decide)
  · rfl

/-- Claim C2 (amended): `InputField` keeps no touched flag and does not gate
on whether the value has changed — a blur event always re-runs the
configured validator on the current value and stores its result as the
error, so a blur on a never-changed field with an invalid value does
display the error. -/
theorem claim_C2_amended_blur_always_validates (f : FieldValidator) (s : FieldState) :
    (handleBlur (some f) s).1 = { value := s.value, error := f s.value } ∧
      errorDisplayed (handleBlur (some f) s).1 =
        (match f s.value with
         | some msg => !msg.isEmpty
         | none => false) :=
  ⟨rfl, rfl⟩

/-- Counterexample to claim C3: submitting `NewForm` with a pristine invalid
username field does not make its error visible — the submit handler never
touches field state, so the error stays hidden. -/
theorem claim_C3_counterexample :
    validateUsername pristineInvalidNewForm.usernameField.value ≠ none ∧
      errorDisplayed (newFormHandleSubmit pristineInvalidNewForm).1.usernameField = false := by
  constructor
  · intro h
    exact absurd h (by decide)
  · rfl

/-- Claim C3 (amended): `NewForm`'s submit handler leaves every field's state
(and hence error visibility) exactly as it was and only reports the current
values; a pristine invalid field therefore does not display its error after
submission. -/
theorem claim_C3_amended_submit_leaves_fields (s : NewFormState) :
    (newFormHandleSubmit s).1 = s ∧
      (newFormHandleSubmit s).2 =
        { username := s.usernameField.value, password := s.passwordField.value } ∧
      errorDisplayed (newFormHandleSubmit s).1.usernameField = errorDisplayed s.usernameField ∧
      errorDisplayed (newFormHandleSubmit s).1.passwordField = errorDisplayed s.passwordField :=
  ⟨rfl, rfl, rfl, rfl⟩

/-- Counterexample to claim C4: `OldForm`'s submit handler blocks the
submission itself — with username "abc" (shorter than 7) and a long
password, the handler returns on its guard and the submit action (logging
and resetting) never happens; no data-submission callback exists, let
alone one invoked on every submission. -/
theorem claim_C4_counterexample :
    (oldFormHandleSubmit
        (handlePasswordChange (handleUsernameChange oldFormInit "abc") "longpassword1")).2
      = false := by
  rfl

/-- Claim C4 (amended): `OldForm`'s submit handler gates submission itself —
the submit action runs exactly when both render-time error strings are
empty and username has at least 7 and password at least 8 characters;
otherwise it aborts after re-validating.  `NewForm`'s submit handler, by
contrast, unconditionally reports the current form data.  Neither form
invokes a configurable data-submission callback. -/
theorem claim_C4_amended_submit_gated (s : OldFormState) (ns : NewFormState) :
    ((oldFormHandleSubmit s).2 = true ↔
        (s.usernameError = "" ∧ s.passwordError = "" ∧
          7 ≤ s.username.length ∧ 8 ≤ s.password.length)) ∧
      (newFormHandleSubmit ns).2 =
        { username := ns.usernameField.value, password := ns.passwordField.value } := by
  refine ⟨?_, rfl⟩
  by_cases h : s.usernameError ≠ "" ∨ s.passwordError ≠ "" ∨
      s.username.length < 7 ∨ s.password.length < 8
  · rw [oldFormHandleSubmit]
    simp only [if_pos h]
    constructor
    · intro hfalse
      exact absurd hfalse (by decide)
    · rintro ⟨h1, h2, h3, h4⟩
      rcases h with h | h | h | h
      · exact absurd h1 h
      · exact absurd h2 h
      · omega
      · omega
  · rw [oldFormHandleSubmit]
    simp only [if_neg h]
    push_neg at h
    obtain ⟨h1, h2, h3, h4⟩ := h
    exact iff_of_true trivial ⟨h1, h2, by omega, by omega⟩

/-- Generalised frame lemma: after any event sequence, the error state is
the validator applied to the value held at the last blur, or the starting
error if no blur occurred. -/
theorem runField_error_eq_lastBlur (f : FieldValidator) (events : List FieldEvent) :
    ∀ (cur : String) (err : Option String),
      ((runField (some f) { value := cur, error := err } events).1).error =
        (match lastBlurValue cur events with
         | none => err
         | some w => f w) := by
  induction events with
  | nil => intro cur err; rfl
  | cons e rest ih =>
    intro cur err
    cases e with
    | change v =>
      simp only [runField, stepField, handleChange, lastBlurValue]
      exact ih v err
    | blur =>
      simp only [runField, stepField, handleBlur, lastBlurValue]
      rw [ih cur (f cur)]
      cases h : lastBlurValue cur rest with
      | none => simp [h]
      | some w => simp [h]

/-- Claim C8: a value-change event leaves the error state unchanged, and
after any event sequence from a fresh mount the displayed error state is
the validator applied to the value held at the most recent blur (or null
if no blur has occurred) — edits after a blur neither clear nor update the
error until the next blur. -/
theorem claim_C8_error_frozen_between_blurs (f : FieldValidator) (init : String)
    (events : List FieldEvent) (s : FieldState) (v : String) :
    (handleChange s v).1.error = s.error ∧
      ((runField (some f) (initField init) events).1).error =
        (match lastBlurValue init events with
         | none => none
         | some w => f w) :=
  ⟨rfl, runField_error_eq_lastBlur f events init none⟩

theorem oldFormInv_init : OldFormInv oldFormInit :=
  ⟨rfl, Or.inl rfl⟩

theorem oldFormInv_step (s : OldFormState) (e : OldFormEvent) (h : OldFormInv s) :
    OldFormInv (oldFormStep s e) := by
  obtain ⟨h1, h2⟩ := h
  cases e with
  | usernameChange v => exact ⟨rfl, h2⟩
  | passwordChange v =>
    simp only [oldFormStep, handlePasswordChange]
    split
    · exact ⟨h1, Or.inr rfl⟩
    · next hcond => exact ⟨h1, Or.inl (not_not.mp hcond)⟩
  | usernameBlur => exact ⟨rfl, h2⟩
  | passwordBlur => exact ⟨h1, Or.inr rfl⟩
  | submit =>
    simp only [oldFormStep, oldFormHandleSubmit]
    split
    · exact ⟨rfl, Or.inr rfl⟩
    · exact ⟨rfl, Or.inl rfl⟩

theorem oldFormInv_run (events : List OldFormEvent) :
    ∀ s : OldFormState, OldFormInv s → OldFormInv (runOldForm s events) := by
  induction events with
  | nil => intro s h; exact h
  | cons e rest ih => intro s h; exact ih _ (oldFormInv_step s e h)

theorem oldFormInv_reachable (s : OldFormState) (h : ReachableOldForm s) :
    OldFormInv s := by
  obtain ⟨events, hrun⟩ := h
  rw [← hrun]
  exact oldFormInv_run events oldFormInit oldFormInv_init

/-- Claim C9: on every reachable `OldForm` state, a submission attempted
while username is shorter than 7 or password shorter than 8 characters is
rejected atomically — the submit action does not run, both values are
unchanged, and no state variable is cleared (re-validation only recomputes
what the invariant already forces); and the all-empty reset state is
produced out of a non-reset state only by an accepted, fully valid
submission. -/
theorem claim_C9_rejected_submission_atomic (s : OldFormState)
    (hreach : ReachableOldForm s) :
    ((s.username.length < 7 ∨ s.password.length < 8) →
        (oldFormHandleSubmit s).2 = false ∧
          (oldFormHandleSubmit s).1.username = s.username ∧
          (oldFormHandleSubmit s).1.password = s.password ∧
          ((oldFormHandleSubmit s).1.usernameError = "" → s.usernameError = "") ∧
          ((oldFormHandleSubmit s).1.passwordError = "" → s.passwordError = "")) ∧
      ((oldFormHandleSubmit s).1 = oldFormInit → s ≠ oldFormInit →
        (oldFormHandleSubmit s).2 = true ∧
          7 ≤ s.username.length ∧ 8 ≤ s.password.length) := by
  obtain ⟨h1, h2⟩ := oldFormInv_reachable s hreach
  constructor
  · intro hlen
    have hg : s.usernameError ≠ "" ∨ s.passwordError ≠ "" ∨
        s.username.length < 7 ∨ s.password.length < 8 := Or.inr (Or.inr hlen)
    simp only [oldFormHandleSubmit, if_pos hg]
    refine ⟨by trivial, by trivial, by trivial, ?_, ?_⟩
    · intro he
      exact h1.trans he
    · intro he
      rcases h2 with h | h
      · exact h
      · exact h.trans he
  · intro hres hne
    by_cases hg : s.usernameError ≠ "" ∨ s.passwordError ≠ "" ∨
        s.username.length < 7 ∨ s.password.length < 8
    · simp only [oldFormHandleSubmit, if_pos hg] at hres
      have hu : s.username = "" := congrArg OldFormState.username hres
      have hp : s.password = "" := congrArg OldFormState.password hres
      have hue : s.usernameError = "" := by rw [h1, hu]; rfl
      have hpe : s.passwordError = "" := by
        rcases h2 with h | h
        · exact h
        · rw [h, hp]; rfl
      have : s = oldFormInit := by
        cases s
        simp_all [oldFormInit]
      exact absurd this hne
    · push_neg at hg
      obtain ⟨hg1, hg2, hg3, hg4⟩ := hg
      simp only [oldFormHandleSubmit,
        if_neg (show ¬(s.usernameError ≠ "" ∨ s.passwordError ≠ "" ∨
          s.username.length < 7 ∨ s.password.length < 8) by push_neg; exact ⟨hg1, hg2, hg3, hg4⟩)]
      exact ⟨by trivial, by omega, by omega⟩

/-- Witness for C9 at a reachable state with a short username. -/
theorem claim_C9_witness :
    (oldFormHandleSubmit (handleUsernameChange oldFormInit "abc")).2 = false :=
  ((claim_C9_rejected_submission_atomic (handleUsernameChange oldFormInit "abc")
      ⟨[OldFormEvent.usernameChange "abc"], rfl⟩).1
    (Or.inl (by decide))).1

/-- Witness for C4 at a concrete accepted submission. -/
theorem claim_C4_witness :
    (oldFormHandleSubmit
        { username := "abcdefg", password := "password1",
          usernameError := "", passwordError := "" }).2 = true :=
  ((claim_C4_amended_submit_gated
      { username := "abcdefg", password := "password1",
        usernameError := "", passwordError := "" }
      { usernameField := initField "", passwordField := initField "" }).1).mpr
    ⟨rfl, rfl, by decide, by decide⟩

/-- Claim C7: `combineValidators` runs each key's validator against that
key's value in declared order and concatenates the failures, each stamped
with `meta.field` equal to its source key; on `{a, b}` where only `Va`
fails (with one failure) the result is exactly that one failure stamped
with field "a"; the returned validator still exposes `Va` and `Vb`
individually; and in general every failure produced comes from some
declared key's validator and carries that key at `meta.field`. -/
theorem claim_C7_combineValidators
    (Va Vb : Validator (Option String)) (record : String → Option String)
    (fa : ValidationFailure)
    (ha : Va (record "a") = [fa]) (hb : Vb (record "b") = []) :
    (combineValidators [("a", Va), ("b", Vb)]).run record = [stampField "a" fa] ∧
      List.lookup "field" (stampField "a" fa).meta = some "a" ∧
      List.lookup "a" (combineValidators [("a", Va), ("b", Vb)]).fields = some Va ∧
      List.lookup "b" (combineValidators [("a", Va), ("b", Vb)]).fields = some Vb ∧
      ∀ (m : List (String × Validator (Option String)))
        (r : String → Option String) (f : ValidationFailure),
        f ∈ (combineValidators m).run r →
          ∃ kv ∈ m, f ∈ (kv.2 (r kv.1)).map (stampField kv.1) ∧
            List.lookup "field" f.meta = some kv.1 := by
  refine ⟨?_, rfl, rfl, rfl, ?_⟩
  · simp [combineValidators, ha, hb]
  · intro m r f hf
    simp only [combineValidators, List.mem_flatten, List.mem_map] at hf
    obtain ⟨l, ⟨kv, hkv, hl⟩, hfl⟩ := hf
    rw [← hl] at hfl
    refine ⟨kv, hkv, hfl, ?_⟩
    obtain ⟨g, hg, hgf⟩ := List.mem_map.mp hfl
    rw [← hgf]
    rfl

/-- Witness for C7 at concrete validators and record. -/
theorem claim_C7_witness :
    (combineValidators [("a", witnessVa), ("b", witnessVb)]).run witnessRecord =
      [stampField "a" { reason := "fail", error := none, meta := [] }] :=
  (claim_C7_combineValidators witnessVa witnessVb witnessRecord
      { reason := "fail", error := none, meta := [] } rfl rfl).1

end FormWidget
